import Mathlib

/-!
# Verification of the drill quiz migrator (`migrate.py`)

A shallow embedding of the text-quiz parser and the relational projector of
`migrate.py`, together with theorems checking the design document's claims
against the code.

Modelling conventions:
* A file is a `List String` of lines, exactly as produced by `readlines()`
  (each line normally carries its trailing newline; the embedding works for
  arbitrary strings, so both conventions are covered).
* Python string helpers (`strip`, `isspace`, `split`, `find`, slicing) are
  re-implemented over `String.toList`.  `strip`/`isspace` use the six ASCII
  whitespace characters recognised by Python; the quiz files and all claims
  use only those.
* Uncaught Python exceptions are modelled with `Except PyErr`:
  - `lines[i]` with `i` out of range raises `IndexError`;
  - `key, value = s.split(":", maxsplit=1)` raises `ValueError` when `s`
    has no colon (migrate.py line 191);
  - `Question(text, type="flashcard", answers=[])` (migrate.py line 238)
    omits the required `tags` argument of `Question.__init__` and therefore
    raises `TypeError`.
* The Python `set` used for `no_credit` is modelled as a duplicate-free
  insertion list; only membership is ever observed.
* Warnings printed by `parse_quiz` are returned as the list of reported
  1-based line numbers, in the order they are printed.
-/

/-- The three kinds of uncaught Python exception the migrator can raise. -/
inductive PyErr where
  | indexError
  | valueError
  | typeError
deriving Repr, DecidableEq

/-- Python `str.isspace` character class (ASCII part). -/
def pyIsSpaceChar (c : Char) : Bool :=
  c = ' ' || c = '\t' || c = '\n' || c = '\r' || c = '\x0b' || c = '\x0c'

/-- Python `s.isspace()`: `s` is non-empty and all characters are whitespace. -/
def pyIsSpace (s : String) : Bool :=
  !s.toList.isEmpty && s.toList.all pyIsSpaceChar

/-- `not lines[i] or lines[i].isspace()`: the line is empty or whitespace-only. -/
def pyBlank (s : String) : Bool :=
  s.toList.isEmpty || pyIsSpace s

/-- Python `s.strip()` (ASCII whitespace). -/
def pyStrip (s : String) : String :=
  String.mk (((s.toList.dropWhile pyIsSpaceChar).reverse.dropWhile pyIsSpaceChar).reverse)

/-- Python `s.startswith(c)` for a single-character pattern. -/
def pyStarts (s : String) (c : Char) : Bool :=
  match s.toList with
  | [] => false
  | a :: _ => a = c

/-- Python `s.startswith(p)` for a general pattern, over character lists. -/
def pyStartsList (s : String) (p : List Char) : Bool :=
  p.isPrefixOf s.toList

/-- Python `s[n:]`. -/
def pyDropN (s : String) (n : Nat) : String :=
  String.mk (s.toList.drop n)

/-- Python `c in s` for a single character. -/
def pyContainsChar (s : String) (c : Char) : Bool :=
  s.toList.contains c

/-- Python `s.find(c)` for a single character, `none` standing for `-1`. -/
def pyFindIdx (s : String) (c : Char) : Option Nat :=
  s.toList.findIdx? (fun d => d = c)

/-- Helper for `pySplit`: accumulates the current fragment in reverse. -/
def pySplitAux (sep : Char) : List Char → List Char → List String
  | [], cur => [String.mk cur.reverse]
  | c :: cs, cur =>
    if c = sep then String.mk cur.reverse :: pySplitAux sep cs []
    else pySplitAux sep cs (c :: cur)

/-- Python `s.split(sep)` for a single-character separator
(`"".split(sep) == [""]`, so the result is never empty). -/
def pySplit (s : String) (sep : Char) : List String :=
  pySplitAux sep s.toList []

/-- Helper for `splitColonOnce`, walking the character list. -/
def splitColonAux : List Char → List Char → Option (String × String)
  | [], _ => none
  | c :: cs, acc =>
    if c = ':' then some (String.mk acc.reverse, String.mk cs)
    else splitColonAux cs (c :: acc)

/-- Python `s.split(":", maxsplit=1)` restricted to the two-element unpacking
of migrate.py line 191: `some (before, after)` on the first colon, `none`
when the unpacking would raise `ValueError`. -/
def splitColonOnce (s : String) : Option (String × String) :=
  splitColonAux s.toList []

/-- Python `set.add`: append if not already present (membership-faithful
model of the `no_credit` set). -/
def setAdd (l : List String) (s : String) : List String :=
  if l.contains s then l else l ++ [s]

/-- `Answer` record of migrate.py. -/
structure Answer where
  text : String
  no_credit : Bool
  correct : Bool
deriving Repr, DecidableEq

/-- `Question` record of migrate.py. -/
structure Question where
  text : String
  type : String
  answers : List Answer
  tags : List String
deriving Repr, DecidableEq

/-- `Quiz` record of migrate.py. -/
structure Quiz where
  name : String
  questions : List Question
  instructions : Option String
deriving Repr, DecidableEq

/-!
## Line scanner and question parser

Each `while` loop of migrate.py walks the line list by index.  The embedding
recurses structurally on the suffix `lines.drop i` while carrying the index
`i`, returning both the final index and the remaining suffix, so that every
loop is a computable structural recursion.
-/

/-- `skip_whitespace` loop body (migrate.py lines 245-249): advance while the
current line is empty or whitespace-only.  `rest` is `lines.drop i`. -/
def skipWsAux : List String → Nat → Nat × List String
  | [], i => (i, [])
  | l :: ls, i =>
    if pyBlank l then skipWsAux ls (i + 1) else (i, l :: ls)

/-- `skip_whitespace(lines, i)` of migrate.py. -/
def skip_whitespace (lines : List String) (i : Nat) : Nat :=
  (skipWsAux (lines.drop i) i).1

/-- `skip_non_whitespace` loop body (migrate.py lines 252-256): advance while
the current line is non-blank.  `rest` is `lines.drop i`. -/
def skipNwAux : List String → Nat → Nat × List String
  | [], i => (i, [])
  | l :: ls, i =>
    if pyBlank l then (i, l :: ls) else skipNwAux ls (i + 1)

/-- `skip_non_whitespace(lines, i)` of migrate.py. -/
def skip_non_whitespace (lines : List String) (i : Nat) : Nat :=
  (skipNwAux (lines.drop i) i).1

/-- Condition of the answer-line loop (migrate.py lines 171-177): the line is
non-blank and starts with neither `-` nor `[`. -/
def answerCond (l : String) : Bool :=
  !pyBlank l && !pyStarts l '-' && !pyStarts l '['

/-- Answer-line loop of `parse_question` (migrate.py lines 170-179):
collect `lines[i].strip()` while `answerCond` holds, returning the collected
answers, the final index and the remaining suffix. -/
def collectAux : List String → Nat → List String × Nat × List String
  | [], i => ([], i, [])
  | l :: ls, i =>
    if answerCond l then
      let r := collectAux ls (i + 1)
      (pyStrip l :: r.1, r.2.1, r.2.2)
    else ([], i, l :: ls)

/-- Directive accumulator state of `parse_question`
(migrate.py lines 181-184). -/
structure DirSt where
  no_credit : List String
  choices : List String
  ordered : Bool
  tags : List String
deriving Repr, DecidableEq

/-- Initial directive state: empty set, empty lists, `ordered = False`. -/
def initDirSt : DirSt := ⟨[], [], false, []⟩

/-- Result of dispatching one directive key/value pair. -/
inductive DirStep where
  | ok (st : DirSt)
  | err
deriving Repr, DecidableEq

/-- The `nocredit` body (migrate.py lines 197-198): add the stripped `/`
fragments of the value to the `no_credit` set. -/
def addFragments (value : String) (l : List String) : List String :=
  (pySplit value '/').foldl (fun acc s => setAdd acc (pyStrip s)) l

/-- Key/value dispatch of the directive loop (migrate.py lines 195-211),
applied to the already-stripped key and value.  `err` is the `parse_error`
flag. -/
def dirStep (key value : String) (st : DirSt) : DirStep :=
  if key = "nocredit" then
    .ok { st with no_credit := addFragments value st.no_credit }
  else if key = "ordered" then
    if value = "true" then .ok { st with ordered := true }
    else if value = "false" then .ok { st with ordered := false }
    else .err
  else if key = "choices" then
    .ok { st with choices := (pySplit value '/').map pyStrip }
  else if key = "tags" then
    .ok { st with tags := (pySplit value ',').map pyStrip }
  else .err

/-- Condition of the directive loop (migrate.py lines 185-190): the line is
non-blank and starts with `-`. -/
def dirCond (l : String) : Bool :=
  !pyBlank l && pyStarts l '-'

/-- Outcome of the directive loop. -/
inductive DirOutcome where
  | crash
  | failed (resync : Nat)
  | done (i : Nat) (st : DirSt) (rest : List String)
deriving Repr, DecidableEq

/-- Directive loop of `parse_question` (migrate.py lines 185-216) over the
suffix `rest = lines.drop i`:
* a directive line with no colon raises `ValueError` (line 191) — `crash`;
* a `parse_error` returns `(None, skip_non_whitespace(lines, i+1))` —
  `failed` with the resynchronisation index;
* otherwise the state is updated and the loop advances. -/
def parseDirAux : List String → Nat → DirSt → DirOutcome
  | [], i, st => .done i st []
  | l :: ls, i, st =>
    if dirCond l then
      match splitColonOnce (pyDropN l 1) with
      | none => .crash
      | some kv =>
        match dirStep (pyStrip kv.1) (pyStrip kv.2) st with
        | .ok st1 => parseDirAux ls (i + 1) st1
        | .err => .failed (skipNwAux ls (i + 1)).1
    else .done i st (l :: ls)

/-- Record derivation of `parse_question` (migrate.py lines 218-241) from the
header text, the collected answer strings and the directive state.
The flashcard branch (line 238) calls `Question(text, type="flashcard",
answers=[])` without the required `tags` argument and raises `TypeError`. -/
def buildQuestion (text : String) (answersAsStrings : List String) (st : DirSt) :
    Except PyErr (Option Question) :=
  match answersAsStrings with
  | a :: rest =>
    let answers := (a :: rest).map
      (fun t => Answer.mk t (st.no_credit.contains t) true)
    if answers.length > 1 then
      .ok (some ⟨text, if st.ordered then "ordered" else "unordered", answers, st.tags⟩)
    else if !st.choices.isEmpty then
      .ok (some ⟨text, "multiple choice",
        answers ++ st.choices.map (fun c => Answer.mk c false false), st.tags⟩)
    else
      .ok (some ⟨text, "short answer", answers, st.tags⟩)
  | [] =>
    if pyContainsChar text '=' then .error .typeError
    else .ok none

/-- `parse_question(lines, i)` of migrate.py (lines 163-242).  Returns the
optional question and the new cursor, or the uncaught Python exception. -/
def parse_question (lines : List String) (i : Nat) :
    Except PyErr (Option Question × Nat) :=
  match lines.drop i with
  | [] => .error .indexError
  | l :: ls =>
    match pyFindIdx l ']' with
    | none => .ok (none, (skipNwAux ls (i + 1)).1)
    | some k =>
      match parseDirAux (collectAux ls (i + 1)).2.2 (collectAux ls (i + 1)).2.1 initDirSt with
      | .crash => .error .valueError
      | .failed r => .ok (none, r)
      | .done i2 st _ =>
        (buildQuestion (pyStrip (pyDropN l (k + 1))) (collectAux ls (i + 1)).1 st).map
          (fun q => (q, i2))

/-- The question loop of `parse_quiz` (migrate.py lines 146-156), with an
explicit fuel bound on the number of iterations: repeatedly parse a question,
record it (or record a warning naming the 1-based line number where parsing
stopped), skip blank lines, and stop at the end of the line list.
`parse_question_progress` makes the cursor strictly increase, so
`lines.length - i` iterations always suffice; `questionsLoop_eq` below proves
that the fuelled loop satisfies exactly the defining equation of the Python
`while` loop. -/
def questionsLoopF : Nat → List String → Nat → Except PyErr (List Question × List Nat)
  | 0, _, _ => .ok ([], [])
  | fuel + 1, lines, i =>
    if i < lines.length then
      match parse_question lines i with
      | .error e => .error e
      | .ok (q, j) =>
        match questionsLoopF fuel lines (skip_whitespace lines j) with
        | .error e => .error e
        | .ok p =>
          match q with
          | some q0 => .ok (q0 :: p.1, p.2)
          | none => .ok (p.1, (j + 1) :: p.2)
    else .ok ([], [])

/-- The question loop of `parse_quiz`, with the sufficient fuel
`lines.length - i` supplied. -/
def questionsLoop (lines : List String) (i : Nat) :
    Except PyErr (List Question × List Nat) :=
  questionsLoopF (lines.length - i) lines i

/-- `parse_quiz` of migrate.py (lines 133-160), over the in-memory line list
(`name` stands for `os.path.basename(path)`).  Returns the quiz and the
warning line numbers, or the uncaught Python exception (`lines[i]` at line
140 raises `IndexError` when every line is blank or the file is empty). -/
def parse_quiz_lines (lines : List String) (name : String) :
    Except PyErr (Quiz × List Nat) :=
  match lines.drop (skip_whitespace lines 0) with
  | [] => .error .indexError
  | l :: _ =>
    if pyStartsList l (("- instructions:").toList) then
      (questionsLoop lines (skip_whitespace lines (skip_whitespace lines 0 + 1))).map
        (fun p => (⟨name, p.1, some (pyStrip (pyDropN l 15))⟩, p.2))
    else
      (questionsLoop lines (skip_whitespace lines 0)).map
        (fun p => (⟨name, p.1, none⟩, p.2))

/-!
## Relational projection (`copy_quiz_to_database`, migrate.py lines 80-130)

The SQLite store is modelled as four append-only row lists plus the
auto-increment counters of the two tables with surrogate keys
(`quizzes.id`, `questions.id`).  `cursor.lastrowid` is the key just
generated by the preceding insert, exactly as captured by the code.
-/

/-- A row of the `quizzes` table. -/
structure QuizzesRow where
  id : Nat
  name : String
  instructions : String
  version : String
deriving Repr, DecidableEq

/-- A row of the `questions` table. -/
structure QuestionsRow where
  id : Nat
  quiz : Nat
  text : String
  type : String
deriving Repr, DecidableEq

/-- A row of the `answers` table. -/
structure AnswersRow where
  question : Nat
  text : String
  no_credit : Bool
  correct : Bool
deriving Repr, DecidableEq

/-- A row of the `tags` table. -/
structure TagsRow where
  question : Nat
  name : String
deriving Repr, DecidableEq

/-- The destination store: four append-only tables and the two
auto-increment counters. -/
structure Db where
  quizzes : List QuizzesRow
  questions : List QuestionsRow
  answers : List AnswersRow
  tags : List TagsRow
  nextQuizId : Nat
  nextQuestionId : Nat
deriving Repr, DecidableEq

/-- Python `x or ""` on an optional string (`quiz.instructions or ""`,
migrate.py line 89): `None` and the empty string both yield `""`. -/
def pyOrEmpty : Option String → String
  | none => ""
  | some s => if s = "" then "" else s

/-- The answers loop of `copy_quiz_to_database` (migrate.py lines 105-119):
one `answers` row per answer, in order, referencing `question_id`. -/
def insertAnswers (db : Db) (questionId : Nat) : List Answer → Db
  | [] => db
  | a :: rest =>
    insertAnswers
      { db with answers := db.answers ++ [⟨questionId, a.text, a.no_credit, a.correct⟩] }
      questionId rest

/-- The tags loop of `copy_quiz_to_database` (migrate.py lines 121-130):
one `tags` row per tag, in order, referencing `question_id`. -/
def insertTags (db : Db) (questionId : Nat) : List String → Db
  | [] => db
  | t :: rest =>
    insertTags { db with tags := db.tags ++ [⟨questionId, t⟩] } questionId rest

/-- The question loop of `copy_quiz_to_database` (migrate.py lines 93-130):
insert the `questions` row, capture `question_id = cursor.lastrowid`, then
insert the question's answers and tags. -/
def insertQuestions (db : Db) (quizId : Nat) : List Question → Db
  | [] => db
  | q :: rest =>
    let questionId := db.nextQuestionId
    let db1 := { db with
      questions := db.questions ++ [⟨questionId, quizId, q.text, q.type⟩],
      nextQuestionId := questionId + 1 }
    let db2 := insertAnswers db1 questionId q.answers
    let db3 := insertTags db2 questionId q.tags
    insertQuestions db3 quizId rest

/-- `copy_quiz_to_database(db, quiz)` of migrate.py (lines 80-130): insert
the `quizzes` row with `version = "1.0"`, capture `quiz_id`, then insert
every question with its answers and tags. -/
def copy_quiz_to_database (db : Db) (quiz : Quiz) : Db :=
  let quizId := db.nextQuizId
  let db1 := { db with
    quizzes := db.quizzes ++ [⟨quizId, quiz.name, pyOrEmpty quiz.instructions, "1.0"⟩],
    nextQuizId := quizId + 1 }
  insertQuestions db1 quizId quiz.questions

/-!
## Progress of the scanners and of `parse_question`

These bounds justify the termination of the `while` loop of `parse_quiz` and
are the content of the implicit progress claim.
-/

/-- The whitespace scanner never moves backwards. -/
theorem skipWsAux_fst_ge (ls : List String) (i : Nat) : i ≤ (skipWsAux ls i).1 := by
  induction ls generalizing i with
  | nil => simp [skipWsAux]
  | cons l ls ih =>
    simp only [skipWsAux]
    split
    · exact le_trans (Nat.le_succ i) (ih (i + 1))
    · exact le_refl i

/-- The non-whitespace scanner never moves backwards. -/
theorem skipNwAux_fst_ge (ls : List String) (i : Nat) : i ≤ (skipNwAux ls i).1 := by
  induction ls generalizing i with
  | nil => simp [skipNwAux]
  | cons l ls ih =>
    simp only [skipNwAux]
    split
    · exact le_refl i
    · exact le_trans (Nat.le_succ i) (ih (i + 1))

/-- The answer-line loop never moves backwards. -/
theorem collectAux_fst_ge (ls : List String) (i : Nat) : i ≤ (collectAux ls i).2.1 := by
  induction ls generalizing i with
  | nil => simp [collectAux]
  | cons l ls ih =>
    simp only [collectAux]
    split
    · exact le_trans (Nat.le_succ i) (ih (i + 1))
    · exact le_refl i

/-- A completed directive loop never moves backwards. -/
theorem parseDirAux_done_ge (ls : List String) (i : Nat) (st : DirSt) (j : Nat)
    (st1 : DirSt) (r : List String) (h : parseDirAux ls i st = .done j st1 r) :
    i ≤ j := by
  induction ls generalizing i st with
  | nil =>
    simp only [parseDirAux] at h
    cases h
    exact le_refl j
  | cons l ls ih =>
    simp only [parseDirAux] at h
    split at h
    · split at h
      · cases h
      · split at h
        · exact le_trans (Nat.le_succ i) (ih (i + 1) _ h)
        · cases h
    · cases h
      exact le_refl j

/-- A failed directive loop resynchronises strictly past the offending line. -/
theorem parseDirAux_failed_ge (ls : List String) (i : Nat) (st : DirSt) (r : Nat)
    (h : parseDirAux ls i st = .failed r) : i + 1 ≤ r := by
  induction ls generalizing i st with
  | nil =>
    simp only [parseDirAux] at h
    exact DirOutcome.noConfusion h
  | cons l ls ih =>
    simp only [parseDirAux] at h
    split at h
    · split at h
      · exact DirOutcome.noConfusion h
      · split at h
        · exact le_trans (Nat.succ_le_succ (Nat.le_succ i)) (ih (i + 1) _ h)
        · cases h
          exact skipNwAux_fst_ge ls (i + 1)
    · exact DirOutcome.noConfusion h

/-- Whenever `parse_question` returns normally, the returned cursor strictly
exceeds the starting index. -/
theorem parse_question_progress (lines : List String) (i : Nat)
    (q : Option Question) (j : Nat) (h : parse_question lines i = .ok (q, j)) :
    i < j := by
  unfold parse_question at h
  split at h
  · exact Except.noConfusion h
  · rename_i l ls heq
    split at h
    · cases h
      exact Nat.lt_of_lt_of_le (Nat.lt_succ_self i) (skipNwAux_fst_ge ls (i + 1))
    · rename_i k hfind
      split at h
      · exact Except.noConfusion h
      · rename_i r hdir
        cases h
        exact Nat.lt_of_lt_of_le (Nat.lt_succ_self i)
          (le_trans (collectAux_fst_ge ls (i + 1)) (le_trans (Nat.le_succ _)
            (parseDirAux_failed_ge _ _ _ _ hdir)))
      · rename_i i2 st rest hdir
        have hle : i < i2 := Nat.lt_of_lt_of_le (Nat.lt_succ_self i)
          (le_trans (collectAux_fst_ge ls (i + 1)) (parseDirAux_done_ge _ _ _ _ _ _ hdir))
        cases hb : buildQuestion (pyStrip (pyDropN l (k + 1))) (collectAux ls (i + 1)).1 st with
        | error e =>
          rw [hb] at h
          exact Except.noConfusion h
        | ok q0 =>
          rw [hb] at h
          cases h
          exact hle

/-- `skip_whitespace` never moves backwards. -/
theorem skip_whitespace_ge (lines : List String) (i : Nat) :
    i ≤ skip_whitespace lines i :=
  skipWsAux_fst_ge (lines.drop i) i

/-- Any two sufficient fuels give the same result. -/
theorem questionsLoopF_mono (f1 : Nat) : ∀ (f2 : Nat) (lines : List String) (i : Nat),
    lines.length - i ≤ f1 → lines.length - i ≤ f2 →
    questionsLoopF f1 lines i = questionsLoopF f2 lines i := by
  induction f1 with
  | zero =>
    intro f2 lines i h1 h2
    have hge : ¬ i < lines.length := by omega
    cases f2 with
    | zero => rfl
    | succ b => simp only [questionsLoopF, if_neg hge]
  | succ a ih =>
    intro f2 lines i h1 h2
    cases f2 with
    | zero =>
      have hge : ¬ i < lines.length := by omega
      simp only [questionsLoopF, if_neg hge]
    | succ b =>
      simp only [questionsLoopF]
      by_cases h : i < lines.length
      · rw [if_pos h, if_pos h]
        cases hpq : parse_question lines i with
        | error e => rfl
        | ok qj =>
          obtain ⟨q, j⟩ := qj
          have hij : i < j := parse_question_progress lines i q j hpq
          have hj2 : j ≤ skip_whitespace lines j := skip_whitespace_ge lines j
          have hrec : questionsLoopF a lines (skip_whitespace lines j)
              = questionsLoopF b lines (skip_whitespace lines j) := by
            apply ih
            · omega
            · omega
          dsimp only
          rw [hrec]
      · rw [if_neg h, if_neg h]

/-- The fuelled loop satisfies the defining equation of the `while` loop of
`parse_quiz`: this is the faithfulness certificate for `questionsLoop`. -/
theorem questionsLoop_eq (lines : List String) (i : Nat) :
    questionsLoop lines i =
      if i < lines.length then
        match parse_question lines i with
        | .error e => .error e
        | .ok (q, j) =>
          match questionsLoop lines (skip_whitespace lines j) with
          | .error e => .error e
          | .ok p =>
            match q with
            | some q0 => .ok (q0 :: p.1, p.2)
            | none => .ok (p.1, (j + 1) :: p.2)
      else .ok ([], []) := by
  by_cases h : i < lines.length
  · rw [if_pos h]
    have hlen : lines.length - i = (lines.length - (i + 1)) + 1 := by omega
    unfold questionsLoop
    rw [hlen]
    simp only [questionsLoopF, if_pos h]
    cases hpq : parse_question lines i with
    | error e => rfl
    | ok qj =>
      obtain ⟨q, j⟩ := qj
      have hij : i < j := parse_question_progress lines i q j hpq
      have hj2 : j ≤ skip_whitespace lines j := skip_whitespace_ge lines j
      have hrec : questionsLoopF (lines.length - (i + 1)) lines (skip_whitespace lines j)
          = questionsLoopF (lines.length - skip_whitespace lines j) lines
              (skip_whitespace lines j) := by
        apply questionsLoopF_mono
        · omega
        · omega
      dsimp only
      rw [hrec]
  · rw [if_neg h]
    unfold questionsLoop
    cases hk : lines.length - i with
    | zero => rfl
    | succ a => simp only [questionsLoopF, if_neg h]

/-!
## Characterisation of the scanners
-/

/-- `String.mk` is a left inverse of `String.toList`. -/
theorem string_mk_toList (s : String) : String.mk s.toList = s := rfl

/-- Unpacking `lines.drop i = l :: ls`: the index is in range, `l` is the
current line and `ls` is the remaining suffix. -/
theorem drop_cons_parts (lines : List String) (i : Nat) (l : String)
    (ls : List String) (h : lines.drop i = l :: ls) :
    i < lines.length ∧ lines.getD i "" = l ∧ lines.drop (i + 1) = ls := by
  refine ⟨?_, ?_, ?_⟩
  · by_contra hc
    rw [List.drop_eq_nil_iff.mpr (by omega)] at h
    exact List.noConfusion h
  · rw [List.getD_eq_getElem?_getD, ← List.head?_drop, h]
    rfl
  · rw [← List.tail_drop, h]
    rfl

/-- What `skip_non_whitespace` computes: starting in range, it stops at the
first blank line at or after the start (or at the end of the list), and
every line it skipped was non-blank. -/
theorem skipNwAux_spec (ls : List String) : ∀ (i : Nat) (lines : List String),
    lines.drop i = ls → i ≤ lines.length →
    (skipNwAux ls i).1 ≤ lines.length ∧
    (∀ m, i ≤ m → m < (skipNwAux ls i).1 → pyBlank (lines.getD m "") = false) ∧
    ((skipNwAux ls i).1 < lines.length → pyBlank (lines.getD (skipNwAux ls i).1 "") = true) := by
  induction ls with
  | nil =>
    intro i lines h hi
    have hlen : lines.length ≤ i := List.drop_eq_nil_iff.mp h
    refine ⟨by simp [skipNwAux]; omega, ?_, ?_⟩
    · intro m him hm
      simp [skipNwAux] at hm
      omega
    · intro hlt
      simp [skipNwAux] at hlt
      omega
  | cons l ls ih =>
    intro i lines h hi
    obtain ⟨hlt, hget, hdrop⟩ := drop_cons_parts lines i l ls h
    by_cases hb : pyBlank l = true
    · simp only [skipNwAux, if_pos hb]
      refine ⟨by omega, ?_, ?_⟩
      · intro m him hm
        omega
      · intro _
        rw [hget]
        exact hb
    · simp only [skipNwAux, if_neg hb]
      have hrec := ih (i + 1) lines hdrop (by omega)
      refine ⟨hrec.1, ?_, hrec.2.2⟩
      intro m him hm
      rcases Nat.eq_or_lt_of_le him with heq | hgt
      · rw [← heq, hget]
        exact Bool.not_eq_true _ ▸ eq_false_of_ne_true hb
      · exact hrec.2.1 m hgt hm

/-- What the answer-line loop computes: the stripped maximal run of
answer-shaped lines, the index advanced past that run, and the suffix
starting at the first non-answer line. -/
theorem collectAux_spec (ls : List String) : ∀ (i : Nat),
    collectAux ls i = ((ls.takeWhile answerCond).map pyStrip,
      i + (ls.takeWhile answerCond).length, ls.dropWhile answerCond) := by
  induction ls with
  | nil =>
    intro i
    simp [collectAux]
  | cons l ls ih =>
    intro i
    by_cases hc : answerCond l = true
    · simp only [collectAux, if_pos hc, ih (i + 1),
        List.takeWhile_cons_of_pos hc, List.dropWhile_cons_of_pos hc,
        List.map_cons, List.length_cons]
      refine Prod.ext rfl (Prod.ext ?_ rfl)
      simp only
      omega
    · simp only [collectAux, if_neg hc,
        List.takeWhile_cons_of_neg hc, List.dropWhile_cons_of_neg hc,
        List.map_nil, List.length_nil, Nat.add_zero]

/-!
## Phase equations of `parse_question`
-/

/-- `parse_question` when the current line has no `]` (migrate.py lines
164-166): no record, resynchronise with `skip_non_whitespace`. -/
theorem parse_question_noheader (lines : List String) (i : Nat) (l : String)
    (ls : List String) (hdrop : lines.drop i = l :: ls)
    (hfind : pyFindIdx l ']' = none) :
    parse_question lines i = .ok (none, (skipNwAux ls (i + 1)).1) := by
  unfold parse_question
  rw [hdrop]
  dsimp only
  rw [hfind]

/-- `parse_question` when the directive loop fails with `parse_error`
(migrate.py line 214): no record, cursor at the resynchronisation index. -/
theorem parse_question_failed (lines : List String) (i : Nat) (l : String)
    (ls : List String) (k : Nat) (r : Nat) (hdrop : lines.drop i = l :: ls)
    (hfind : pyFindIdx l ']' = some k)
    (hdir : parseDirAux (collectAux ls (i + 1)).2.2 (collectAux ls (i + 1)).2.1
      initDirSt = .failed r) :
    parse_question lines i = .ok (none, r) := by
  unfold parse_question
  rw [hdrop]
  dsimp only
  rw [hfind]
  dsimp only
  rw [hdir]

/-- `parse_question` when the directive loop completes: the result is the
record derivation applied to the header text, the collected answers and the
final directive state. -/
theorem parse_question_done (lines : List String) (i : Nat) (l : String)
    (ls : List String) (k : Nat) (i2 : Nat) (st : DirSt) (rest : List String)
    (hdrop : lines.drop i = l :: ls) (hfind : pyFindIdx l ']' = some k)
    (hdir : parseDirAux (collectAux ls (i + 1)).2.2 (collectAux ls (i + 1)).2.1
      initDirSt = .done i2 st rest) :
    parse_question lines i =
      (buildQuestion (pyStrip (pyDropN l (k + 1))) (collectAux ls (i + 1)).1 st).map
        (fun q => (q, i2)) := by
  unfold parse_question
  rw [hdrop]
  dsimp only
  rw [hfind]
  dsimp only
  rw [hdir]

/-!
## Claim theorems
-/

/-- Claim C6: at every in-range position whose line contains no `]`,
`parse_question` produces no question record and returns the cursor at the
next blank-line boundary after that line (or the end of the sequence): every
line strictly between the start and the returned cursor is non-blank, and
the cursor either sits on a blank line or at the end of the list. -/
theorem C6_noheader_resync (lines : List String) (i : Nat) (h : i < lines.length)
    (hfind : pyFindIdx (lines.getD i "") ']' = none) :
    parse_question lines i = .ok (none, skip_non_whitespace lines (i + 1)) ∧
    i + 1 ≤ skip_non_whitespace lines (i + 1) ∧
    skip_non_whitespace lines (i + 1) ≤ lines.length ∧
    (∀ m, i + 1 ≤ m → m < skip_non_whitespace lines (i + 1) →
      pyBlank (lines.getD m "") = false) ∧
    (skip_non_whitespace lines (i + 1) < lines.length →
      pyBlank (lines.getD (skip_non_whitespace lines (i + 1)) "") = true) := by
  have hcons : lines.drop i = lines.getD i "" :: lines.drop (i + 1) := by
    rw [List.getD_eq_getElem lines "" h]
    exact List.drop_eq_getElem_cons h
  have hspec := skipNwAux_spec (lines.drop (i + 1)) (i + 1) lines rfl (by omega)
  exact ⟨parse_question_noheader lines i _ _ hcons hfind,
    skipNwAux_fst_ge (lines.drop (i + 1)) (i + 1), hspec.1, hspec.2.1, hspec.2.2⟩

/-- Witness for C6 at the concrete input `["no bracket", "", "x"]`. -/
theorem C6_noheader_resync_witness :
    parse_question ["no bracket", "", "x"] 0 =
      .ok (none, skip_non_whitespace ["no bracket", "", "x"] 1) ∧
    0 + 1 ≤ skip_non_whitespace ["no bracket", "", "x"] 1 ∧
    skip_non_whitespace ["no bracket", "", "x"] 1 ≤ (["no bracket", "", "x"] : List String).length ∧
    (∀ m, 0 + 1 ≤ m → m < skip_non_whitespace ["no bracket", "", "x"] 1 →
      pyBlank ((["no bracket", "", "x"] : List String).getD m "") = false) ∧
    (skip_non_whitespace ["no bracket", "", "x"] 1 < (["no bracket", "", "x"] : List String).length →
      pyBlank ((["no bracket", "", "x"] : List String).getD
        (skip_non_whitespace ["no bracket", "", "x"] 1) "") = true) :=
  C6_noheader_resync ["no bracket", "", "x"] 0 (by decide) (by decide)

/-- Claim C10: whenever `parse_question` returns at an in-range starting
index, the returned cursor strictly exceeds the start, and therefore the
measure of the question loop of `parse_quiz` strictly decreases (the loop
terminates on every finite input). -/
theorem C10_progress (lines : List String) (i : Nat) (h : i < lines.length)
    (q : Option Question) (j : Nat) (heq : parse_question lines i = .ok (q, j)) :
    i < j ∧ lines.length - skip_whitespace lines j < lines.length - i := by
  have hij := parse_question_progress lines i q j heq
  exact ⟨hij, Nat.sub_lt_sub_left h
    (Nat.lt_of_lt_of_le hij (skip_whitespace_ge lines j))⟩

/-- Witness for C10 at the concrete input `["x"]`. -/
theorem C10_progress_witness :
    0 < 1 ∧ (["x"] : List String).length - skip_whitespace ["x"] 1 <
      (["x"] : List String).length - 0 :=
  C10_progress ["x"] 0 (by decide) none 1 rfl

/-- Claim C1 (refuted by the code): `parse_quiz` is not total.  The
flashcard branch (migrate.py line 238) constructs
`Question(text, type="flashcard", answers=[])` without the required `tags`
argument, so the well-formed flashcard record `[1] a = b` raises `TypeError`;
and on an input with no non-blank line, `lines[i]` at line 140 raises
`IndexError`.  Both contradict the claim that the in-memory pass always
returns a Quiz. -/
theorem C1_parse_quiz_crashes :
    parse_quiz_lines ["[1] a = b\n", "\n"] "q" = .error .typeError ∧
    parse_quiz_lines [] "q" = .error .indexError ∧
    parse_quiz_lines ["\n", "  \n"] "q" = .error .indexError :=
  ⟨rfl, rfl, rfl⟩

/-- Claim C2 (refuted by the code): on the input `cat = кот` followed by a
blank line, the parser produces zero questions, not one flashcard question:
`parse_question` requires a `]` on the header line (migrate.py lines
164-166) and this line has none. -/
theorem C2_counterexample :
    (parse_quiz_lines ["cat = кот\n", "\n"] "cat").map
      (fun p => p.1.questions.length) = .ok 0 :=
  rfl

/-- Claim C2 as amended: the input `cat = кот` followed by a blank line
yields a Quiz with an empty question sequence and a single warning naming
line 2 (the line after the failed question), because the line has no `]`
header and `parse_question` signals failure. -/
theorem C2_amended :
    parse_quiz_lines ["cat = кот\n", "\n"] "cat" =
      .ok (⟨"cat", [], none⟩, [2]) :=
  rfl

/-- Claim C8 (refuted by the code, which contradicts its own schema): the
input `[1]` / `A` produces a Question whose `text` is the empty string (the
header content after `]` strips to `""`), although the `questions` table of
the very same file carries `CHECK (text != '')`. -/
theorem C8_empty_text_question :
    (parse_quiz_lines ["[1]\n", "A\n", "\n"] "q").map
      (fun p => p.1.questions.map Question.text) = .ok [""] :=
  rfl

/-!
## Characterisation of the relational projector
-/

/-- Reindexing helper: starting the index one later is the same as shifting
the index inside the function. -/
theorem mapIdx_shift {α β : Type} (f : Nat → α → β) (n : Nat) (l : List α) :
    l.mapIdx (fun k a => f (n + 1 + k) a) = l.mapIdx (fun k a => f (n + (k + 1)) a) := by
  congr 1
  funext k a
  rw [Nat.add_assoc, Nat.add_comm 1 k]

/-- The answers loop only appends the answer rows, in order. -/
theorem insertAnswers_spec (l : List Answer) : ∀ (db : Db) (qid : Nat),
    insertAnswers db qid l =
      { db with answers := db.answers ++ l.map (fun a => ⟨qid, a.text, a.no_credit, a.correct⟩) } := by
  induction l with
  | nil =>
    intro db qid
    simp [insertAnswers]
  | cons a rest ih =>
    intro db qid
    simp only [insertAnswers, ih, List.map_cons]
    congr 1
    simp

/-- The tags loop only appends the tag rows, in order. -/
theorem insertTags_spec (l : List String) : ∀ (db : Db) (qid : Nat),
    insertTags db qid l =
      { db with tags := db.tags ++ l.map (fun t => ⟨qid, t⟩) } := by
  induction l with
  | nil =>
    intro db qid
    simp [insertTags]
  | cons t rest ih =>
    intro db qid
    simp only [insertTags, ih, List.map_cons]
    congr 1
    simp

/-- The question loop appends one `questions` row per question with
consecutive surrogate keys, and each question's answer and tag rows in
order, referencing that question's key; the quiz table and quiz counter are
untouched. -/
theorem insertQuestions_spec (qs : List Question) : ∀ (db : Db) (quizId : Nat),
    (insertQuestions db quizId qs).quizzes = db.quizzes ∧
    (insertQuestions db quizId qs).nextQuizId = db.nextQuizId ∧
    (insertQuestions db quizId qs).nextQuestionId = db.nextQuestionId + qs.length ∧
    (insertQuestions db quizId qs).questions = db.questions ++
      qs.mapIdx (fun k q => ⟨db.nextQuestionId + k, quizId, q.text, q.type⟩) ∧
    (insertQuestions db quizId qs).answers = db.answers ++
      (qs.mapIdx (fun k q => q.answers.map
        (fun a => ⟨db.nextQuestionId + k, a.text, a.no_credit, a.correct⟩))).flatten ∧
    (insertQuestions db quizId qs).tags = db.tags ++
      (qs.mapIdx (fun k q => q.tags.map
        (fun t => (⟨db.nextQuestionId + k, t⟩ : TagsRow)))).flatten := by
  induction qs with
  | nil =>
    intro db quizId
    simp [insertQuestions]
  | cons q rest ih =>
    intro db quizId
    simp only [insertQuestions, insertAnswers_spec, insertTags_spec]
    have h := ih { db with
      questions := db.questions ++ [⟨db.nextQuestionId, quizId, q.text, q.type⟩],
      nextQuestionId := db.nextQuestionId + 1,
      answers := db.answers ++ q.answers.map
        (fun a => ⟨db.nextQuestionId, a.text, a.no_credit, a.correct⟩),
      tags := db.tags ++ q.tags.map (fun t => ⟨db.nextQuestionId, t⟩) } quizId
    simp only at h
    refine ⟨?_, ?_, ?_, ?_, ?_, ?_⟩
    · rw [h.1]
    · rw [h.2.1]
    · rw [h.2.2.1]
      simp only [List.length_cons]
      omega
    · rw [h.2.2.2.1, List.mapIdx_cons]
      rw [show (fun k (q1 : Question) =>
          (⟨db.nextQuestionId + 1 + k, quizId, q1.text, q1.type⟩ : QuestionsRow)) =
        (fun k q1 => (fun n (q2 : Question) =>
          (⟨n, quizId, q2.text, q2.type⟩ : QuestionsRow)) (db.nextQuestionId + 1 + k) q1)
        from rfl]
      rw [mapIdx_shift (fun n q2 => (⟨n, quizId, q2.text, q2.type⟩ : QuestionsRow))
        db.nextQuestionId rest]
      simp [List.append_assoc]
    · rw [h.2.2.2.2.1, List.mapIdx_cons]
      rw [show (fun k (q1 : Question) => q1.answers.map (fun a =>
          (⟨db.nextQuestionId + 1 + k, a.text, a.no_credit, a.correct⟩ : AnswersRow))) =
        (fun k q1 => (fun n (q2 : Question) => q2.answers.map (fun a =>
          (⟨n, a.text, a.no_credit, a.correct⟩ : AnswersRow))) (db.nextQuestionId + 1 + k) q1)
        from rfl]
      rw [mapIdx_shift (fun n (q2 : Question) => q2.answers.map (fun a =>
        (⟨n, a.text, a.no_credit, a.correct⟩ : AnswersRow))) db.nextQuestionId rest]
      simp [List.append_assoc]
    · rw [h.2.2.2.2.2, List.mapIdx_cons]
      rw [show (fun k (q1 : Question) => q1.tags.map (fun t =>
          (⟨db.nextQuestionId + 1 + k, t⟩ : TagsRow))) =
        (fun k q1 => (fun n (q2 : Question) => q2.tags.map (fun t =>
          (⟨n, t⟩ : TagsRow))) (db.nextQuestionId + 1 + k) q1)
        from rfl]
      rw [mapIdx_shift (fun n (q2 : Question) => q2.tags.map (fun t =>
        (⟨n, t⟩ : TagsRow))) db.nextQuestionId rest]
      simp [List.append_assoc]

/-- Claim C9: projecting a parsed Quiz inserts exactly one `quizzes` row
(name, instructions-or-empty, fixed version "1.0") with the fresh quiz key,
then the `questions`, `answers` and `tags` rows in original in-memory order,
each row referencing the surrogate key captured from its parent's insert. -/
theorem C9_projection (db : Db) (quiz : Quiz) :
    (copy_quiz_to_database db quiz).quizzes =
      db.quizzes ++ [⟨db.nextQuizId, quiz.name, pyOrEmpty quiz.instructions, "1.0"⟩] ∧
    (copy_quiz_to_database db quiz).questions =
      db.questions ++ quiz.questions.mapIdx
        (fun k q => ⟨db.nextQuestionId + k, db.nextQuizId, q.text, q.type⟩) ∧
    (copy_quiz_to_database db quiz).answers =
      db.answers ++ (quiz.questions.mapIdx
        (fun k q => q.answers.map
          (fun a => ⟨db.nextQuestionId + k, a.text, a.no_credit, a.correct⟩))).flatten ∧
    (copy_quiz_to_database db quiz).tags =
      db.tags ++ (quiz.questions.mapIdx
        (fun k q => q.tags.map
          (fun t => (⟨db.nextQuestionId + k, t⟩ : TagsRow)))).flatten := by
  unfold copy_quiz_to_database
  have h := insertQuestions_spec quiz.questions
    { db with
      quizzes := db.quizzes ++
        [⟨db.nextQuizId, quiz.name, pyOrEmpty quiz.instructions, "1.0"⟩],
      nextQuizId := db.nextQuizId + 1 } db.nextQuizId
  simp only at h ⊢
  exact ⟨h.1, h.2.2.2.1, h.2.2.2.2.1, h.2.2.2.2.2⟩

/-!
## Directive-dispatch facts
-/

/-- `contains` distributes over list append. -/
theorem contains_append_or (l1 l2 : List String) (x : String) :
    (l1 ++ l2).contains x = (l1.contains x || l2.contains x) := by
  induction l1 with
  | nil => simp
  | cons a l ih => simp [List.contains_cons, ih, Bool.or_assoc]

/-- Membership in the `no_credit` set after one `add`. -/
theorem setAdd_contains (l : List String) (s x : String) :
    (setAdd l s).contains x = (l.contains x || x == s) := by
  unfold setAdd
  split
  · rename_i hin
    by_cases hx : (x == s) = true
    · have hxs : x = s := eq_of_beq hx
      subst hxs
      rw [hin, hx]
      simp
    · rw [Bool.not_eq_true] at hx
      rw [hx]
      simp
  · rw [contains_append_or]
    have hbeq : (x == s) = decide (x = s) := by
      by_cases hxe : x = s
      · subst hxe
        simp
      · simp [hxe]
    simp [List.contains_cons, hbeq]

/-- Membership in the `no_credit` set after folding in one directive's
fragments: old membership, or a fragment whose stripped text matches. -/
theorem addFragments_contains (value : String) (l : List String) (x : String) :
    (addFragments value l).contains x =
      (l.contains x || (pySplit value '/').any (fun s => x == pyStrip s)) := by
  unfold addFragments
  generalize pySplit value '/' = fs
  induction fs generalizing l with
  | nil => simp
  | cons f fs ih =>
    simp only [List.foldl_cons, ih, List.any_cons, setAdd_contains, Bool.or_assoc]

/-- Python `split` with a separator never returns an empty list. -/
theorem pySplitAux_ne_nil (sep : Char) (cs : List Char) : ∀ (cur : List Char),
    pySplitAux sep cs cur ≠ [] := by
  induction cs with
  | nil =>
    intro cur
    simp [pySplitAux]
  | cons c cs ih =>
    intro cur
    simp only [pySplitAux]
    split
    · simp
    · exact ih (c :: cur)

/-- Python `split` with a separator never returns an empty list. -/
theorem pySplit_ne_nil (s : String) (sep : Char) : pySplit s sep ≠ [] :=
  pySplitAux_ne_nil sep s.toList []

/-- Claim C7: per-key behaviour of repeated directive lines with the same
key, reproduced literally from the dispatch (migrate.py lines 196-209):
`nocredit` accumulates into a single set across occurrences (membership
after two occurrences is membership in the old set or among either
occurrence's stripped fragments), `choices` and `tags` are overwritten so
only the last occurrence's list survives, and the scalar `ordered` flag
takes the last written value. -/
theorem C7_repeated_directives (st : DirSt) (i : Nat) (v w x : String) :
    (parseDirAux ["-nocredit:" ++ v, "-nocredit:" ++ w] i st = .done (i + 2)
      { st with no_credit := addFragments (pyStrip w) (addFragments (pyStrip v) st.no_credit) } [] ∧
      (addFragments (pyStrip w) (addFragments (pyStrip v) st.no_credit)).contains x =
        (st.no_credit.contains x ||
          (pySplit (pyStrip v) '/').any (fun s => x == pyStrip s) ||
          (pySplit (pyStrip w) '/').any (fun s => x == pyStrip s))) ∧
    parseDirAux ["-choices:" ++ v, "-choices:" ++ w] i st = .done (i + 2)
      { st with choices := (pySplit (pyStrip w) '/').map pyStrip } [] ∧
    parseDirAux ["-tags:" ++ v, "-tags:" ++ w] i st = .done (i + 2)
      { st with tags := (pySplit (pyStrip w) ',').map pyStrip } [] ∧
    parseDirAux ["-ordered: true", "-ordered: false"] i st = .done (i + 2)
      { st with ordered := false } [] ∧
    parseDirAux ["-ordered: false", "-ordered: true"] i st = .done (i + 2)
      { st with ordered := true } [] := by
  obtain ⟨vd⟩ := v
  obtain ⟨wd⟩ := w
  refine ⟨⟨rfl, ?_⟩, rfl, rfl, rfl, rfl⟩
  rw [addFragments_contains, addFragments_contains, Bool.or_assoc]

/-- Claim C3 (refuted by the code for directives with no colon): a directive
line starting with `-` that contains no `:` at all is not recovered — the
two-element unpacking of `split(":", maxsplit=1)` at migrate.py line 191
raises `ValueError` and the whole run aborts. -/
theorem C3_counterexample :
    parse_question ["[1]Q\n", "A\n", "-bogus\n", "\n"] 0 = .error .valueError ∧
    parse_quiz_lines ["[1]Q\n", "A\n", "-bogus\n", "\n"] "q" = .error .valueError :=
  ⟨rfl, rfl⟩

/-- Claim C3 as amended: for every malformed directive line that does
contain a `:` — an unrecognized key, or an `ordered` value other than
exactly `true`/`false` — the failure is recovered locally, whatever state
the directive loop has reached: the loop fails with the cursor resynchronised
by `skip_non_whitespace` past the offending line (part 1), such keys and
values are exactly what the dispatch rejects (part 2), `parse_question`
then returns no record and the resynchronisation cursor (part 3), the quiz
loop records a warning naming the 1-based line number of the cursor and
continues parsing the rest of the file — the run is never aborted (part 4),
and the resynchronisation cursor is the next blank-line boundary (part 5).
A directive line with no `:` instead raises an uncaught `ValueError`
(`C3_counterexample`). -/
theorem C3_amended :
    (∀ (d : String) (ls1 : List String) (j : Nat) (st : DirSt) (key value : String),
      dirCond d = true → splitColonOnce (pyDropN d 1) = some (key, value) →
      dirStep (pyStrip key) (pyStrip value) st = .err →
      parseDirAux (d :: ls1) j st = .failed ((skipNwAux ls1 (j + 1)).1)) ∧
    (∀ (key value : String) (st : DirSt),
      (key ≠ "nocredit" ∧ key ≠ "ordered" ∧ key ≠ "choices" ∧ key ≠ "tags") ∨
        (key = "ordered" ∧ value ≠ "true" ∧ value ≠ "false") →
      dirStep key value st = .err) ∧
    (∀ (lines : List String) (i : Nat) (l : String) (ls : List String) (k r : Nat),
      lines.drop i = l :: ls → pyFindIdx l ']' = some k →
      parseDirAux (collectAux ls (i + 1)).2.2 (collectAux ls (i + 1)).2.1 initDirSt =
        .failed r →
      parse_question lines i = .ok (none, r)) ∧
    (∀ (lines : List String) (i r : Nat),
      i < lines.length → parse_question lines i = .ok (none, r) →
      questionsLoop lines i =
        (questionsLoop lines (skip_whitespace lines r)).map
          (fun p => (p.1, (r + 1) :: p.2))) ∧
    (∀ (lines : List String) (j : Nat), j ≤ lines.length →
      (∀ m, j ≤ m → m < skip_non_whitespace lines j → pyBlank (lines.getD m "") = false) ∧
      (skip_non_whitespace lines j < lines.length →
        pyBlank (lines.getD (skip_non_whitespace lines j) "") = true)) := by
  refine ⟨?_, ?_, ?_, ?_, ?_⟩
  · intro d ls1 j st key value hcond hsplit hstep
    simp only [parseDirAux, if_pos hcond, hsplit, hstep]
  · intro key value st hbad
    unfold dirStep
    rcases hbad with ⟨h1, h2, h3, h4⟩ | ⟨h1, h2, h3⟩
    · rw [if_neg h1, if_neg h2, if_neg h3, if_neg h4]
    · subst h1
      rw [if_neg (by decide), if_pos rfl, if_neg h2, if_neg h3]
  · intro lines i l ls k r hdrop hfind hdir
    exact parse_question_failed lines i l ls k r hdrop hfind hdir
  · intro lines i r h hpq
    rw [questionsLoop_eq, if_pos h, hpq]
    dsimp only
    cases hq : questionsLoop lines (skip_whitespace lines r) with
    | error e => rfl
    | ok p => rfl
  · intro lines j hj
    have hspec := skipNwAux_spec (lines.drop j) j lines rfl hj
    exact ⟨hspec.2.1, hspec.2.2⟩

/-- Witness for C3 at the file `[1]Q` / `A` / `-bogus: x` / blank /
`[2]R` / `B`: the bad directive (recognized shape, unrecognized key) makes
the loop fail with resynchronisation at the blank line (index 3), the
dispatch rejects the key, `parse_question` returns no record at cursor 3,
and the quiz loop warns for line 4 and continues from the blank line. -/
theorem C3_amended_witness :
    parseDirAux ["-bogus: x\n", "\n"] 2 initDirSt =
      .failed ((skipNwAux ["\n"] 3).1) ∧
    dirStep "bogus" "x" initDirSt = .err ∧
    parse_question ["[1]Q\n", "A\n", "-bogus: x\n", "\n", "[2]R\n", "B\n"] 0 =
      .ok (none, 3) ∧
    questionsLoop ["[1]Q\n", "A\n", "-bogus: x\n", "\n", "[2]R\n", "B\n"] 0 =
      (questionsLoop ["[1]Q\n", "A\n", "-bogus: x\n", "\n", "[2]R\n", "B\n"]
        (skip_whitespace ["[1]Q\n", "A\n", "-bogus: x\n", "\n", "[2]R\n", "B\n"] 3)).map
        (fun p => (p.1, (3 + 1) :: p.2)) ∧
    (∀ m, 3 ≤ m → m < skip_non_whitespace ["[1]Q\n", "A\n", "-bogus: x\n", "\n", "[2]R\n", "B\n"] 3 →
      pyBlank ((["[1]Q\n", "A\n", "-bogus: x\n", "\n", "[2]R\n", "B\n"] : List String).getD m "") = false) :=
  ⟨C3_amended.1 "-bogus: x\n" ["\n"] 2 initDirSt "bogus" " x\n" (by decide) rfl rfl,
   C3_amended.2.1 "bogus" "x" initDirSt (Or.inl ⟨by decide, by decide, by decide, by decide⟩),
   C3_amended.2.2.1 ["[1]Q\n", "A\n", "-bogus: x\n", "\n", "[2]R\n", "B\n"] 0 "[1]Q\n"
     ["A\n", "-bogus: x\n", "\n", "[2]R\n", "B\n"] 2 3 rfl rfl rfl,
   C3_amended.2.2.2.1 ["[1]Q\n", "A\n", "-bogus: x\n", "\n", "[2]R\n", "B\n"] 0 3
     (by decide) rfl,
   (C3_amended.2.2.2.2 ["[1]Q\n", "A\n", "-bogus: x\n", "\n", "[2]R\n", "B\n"] 3
     (by decide)).1⟩

/-- Claim C5 (refuted as literally stated): with the directive lines
`-ordered: true` followed by `-ordered: false`, an `-ordered: true`
directive is present in the question's directive region, yet the parsed
type is `unordered` — last write wins (migrate.py lines 199-205), so
`ordered` is not equivalent to the presence of an `-ordered: true`
directive. -/
theorem C5_counterexample :
    parse_question ["[1]Q\n", "A\n", "B\n", "-ordered: true\n", "-ordered: false\n", "\n"] 0 =
      .ok (some ⟨"Q", "unordered", [⟨"A", false, true⟩, ⟨"B", false, true⟩], []⟩, 5) ∧
    (["[1]Q\n", "A\n", "B\n", "-ordered: true\n", "-ordered: false\n", "\n"] : List String).getD 3 "" =
      "-ordered: true\n" :=
  ⟨rfl, rfl⟩

/-- Claim C5 as amended: for every question with two or more literal answer
lines, the parsed type is `ordered` iff the final `ordered` flag written by
the directive loop (the last `-ordered:` value, `false` when none occurs)
is true, otherwise `unordered`; and the answer sequence is exactly the
trimmed answer lines in source order. -/
theorem C5_amended (lines : List String) (i : Nat) (l : String) (ls : List String)
    (k i2 : Nat) (st : DirSt) (rest : List String) (a b : String) (more : List String)
    (hdrop : lines.drop i = l :: ls) (hfind : pyFindIdx l ']' = some k)
    (hans : (collectAux ls (i + 1)).1 = a :: b :: more)
    (hdir : parseDirAux (collectAux ls (i + 1)).2.2 (collectAux ls (i + 1)).2.1
      initDirSt = .done i2 st rest) :
    parse_question lines i = .ok (some ⟨pyStrip (pyDropN l (k + 1)),
      if st.ordered then "ordered" else "unordered",
      (a :: b :: more).map (fun t => ⟨t, st.no_credit.contains t, true⟩), st.tags⟩, i2) ∧
    a :: b :: more = ((lines.drop (i + 1)).takeWhile answerCond).map pyStrip := by
  constructor
  · rw [parse_question_done lines i l ls k i2 st rest hdrop hfind hdir, hans]
    unfold buildQuestion
    dsimp only
    rw [if_pos (by simp)]
    rfl
  · have hd := drop_cons_parts lines i l ls hdrop
    rw [hd.2.2, ← hans, collectAux_spec]

/-- Witness for C5 at the file `[1]Q` / `A` / `B` / `-ordered: true`. -/
theorem C5_amended_witness :
    parse_question ["[1]Q\n", "A\n", "B\n", "-ordered: true\n", "\n"] 0 =
      .ok (some ⟨pyStrip (pyDropN "[1]Q\n" (2 + 1)),
        if (DirSt.mk [] [] true []).ordered then "ordered" else "unordered",
        (["A", "B"] : List String).map
          (fun t => ⟨t, (DirSt.mk [] [] true []).no_credit.contains t, true⟩),
        (DirSt.mk [] [] true []).tags⟩, 4) ∧
    ("A" :: "B" :: ([] : List String)) =
      (((["[1]Q\n", "A\n", "B\n", "-ordered: true\n", "\n"] : List String).drop (0 + 1)).takeWhile
        answerCond).map pyStrip :=
  C5_amended ["[1]Q\n", "A\n", "B\n", "-ordered: true\n", "\n"] 0 "[1]Q\n"
    ["A\n", "B\n", "-ordered: true\n", "\n"] 2 4 ⟨[], [], true, []⟩ ["\n"] "A" "B" []
    rfl rfl rfl rfl

/-- Claim C4: for every question with exactly one literal answer line and a
non-empty `choices` list in the final directive state, the parsed question
has type `multiple choice`; its answers are the literal answer first, with
`correct = true` and `no_credit` read off the accumulated no-credit set,
followed by the distractors in directive order, each `correct = false`,
`no_credit = false` (part 1); the answer sequence has length `N + 1` where
`N` is the number of distractors (part 2); a `choices` directive stores
exactly the stripped `/`-fragments of its value (part 3); and that fragment
list is never empty, so any `choices` directive forces the multiple-choice
classification (part 4). -/
theorem C4_multiple_choice (lines : List String) (i : Nat) (l : String)
    (ls : List String) (k i2 : Nat) (st : DirSt) (rest : List String) (a : String)
    (hdrop : lines.drop i = l :: ls) (hfind : pyFindIdx l ']' = some k)
    (hans : (collectAux ls (i + 1)).1 = [a])
    (hdir : parseDirAux (collectAux ls (i + 1)).2.2 (collectAux ls (i + 1)).2.1
      initDirSt = .done i2 st rest)
    (hch : st.choices ≠ []) :
    parse_question lines i = .ok (some ⟨pyStrip (pyDropN l (k + 1)), "multiple choice",
      ⟨a, st.no_credit.contains a, true⟩ :: st.choices.map (fun c => ⟨c, false, false⟩),
      st.tags⟩, i2) ∧
    (Answer.mk a (st.no_credit.contains a) true ::
      st.choices.map (fun c => Answer.mk c false false)).length = st.choices.length + 1 ∧
    (∀ (value : String) (st0 : DirSt), dirStep "choices" value st0 =
      .ok { st0 with choices := (pySplit value '/').map pyStrip }) ∧
    (∀ (value : String), (pySplit value '/').map pyStrip ≠ []) := by
  refine ⟨?_, by simp, ?_, ?_⟩
  · rw [parse_question_done lines i l ls k i2 st rest hdrop hfind hdir, hans]
    unfold buildQuestion
    dsimp only
    rw [if_neg (by simp)]
    have hne : st.choices.isEmpty = false := by
      cases hcc : st.choices with
      | nil => exact absurd hcc hch
      | cons c cs => rfl
    rw [hne]
    rfl
  · intro value st0
    unfold dirStep
    rw [if_neg (by decide), if_neg (by decide), if_pos rfl]
  · intro value
    have h := pySplit_ne_nil value '/'
    simp only [ne_eq, List.map_eq_nil_iff]
    exact h

/-- Witness for C4 at the file `[1]Color?` / `blue` / `-nocredit: blue` /
`-choices: red/green`. -/
theorem C4_multiple_choice_witness :
    parse_question ["[1]Color?\n", "blue\n", "-nocredit: blue\n", "-choices: red/green\n", "\n"] 0 =
      .ok (some ⟨pyStrip (pyDropN "[1]Color?\n" (2 + 1)), "multiple choice",
        ⟨"blue", (DirSt.mk ["blue"] ["red", "green"] false []).no_credit.contains "blue", true⟩ ::
          (DirSt.mk ["blue"] ["red", "green"] false []).choices.map (fun c => ⟨c, false, false⟩),
        (DirSt.mk ["blue"] ["red", "green"] false []).tags⟩, 4) ∧
    (Answer.mk "blue" ((DirSt.mk ["blue"] ["red", "green"] false []).no_credit.contains "blue") true ::
      (DirSt.mk ["blue"] ["red", "green"] false []).choices.map
        (fun c => Answer.mk c false false)).length =
      (DirSt.mk ["blue"] ["red", "green"] false []).choices.length + 1 ∧
    (∀ (value : String) (st0 : DirSt), dirStep "choices" value st0 =
      .ok { st0 with choices := (pySplit value '/').map pyStrip }) ∧
    (∀ (value : String), (pySplit value '/').map pyStrip ≠ []) :=
  C4_multiple_choice ["[1]Color?\n", "blue\n", "-nocredit: blue\n", "-choices: red/green\n", "\n"]
    0 "[1]Color?\n" ["blue\n", "-nocredit: blue\n", "-choices: red/green\n", "\n"] 2 4
    ⟨["blue"], ["red", "green"], false, []⟩ ["\n"] "blue" rfl rfl rfl rfl (by decide)
